import Mathlib

/-!
Shallow embedding of the session-relay WebSocket server in `src/server.ts`
(the complete variant, with `process_transaction` / `transaction_result`).

Modelling conventions:
* Sockets are identified by natural numbers.  The mutable per-socket
  attributes the code stores on the `ws` object (`isBot`, `sessionId`) and
  the socket's `readyState === OPEN` test are carried in the server state as
  functions from socket ids.
* JS `Map`s (`sessions`, `connections`) are modelled as functions from keys
  to `Option` values; `Map.set` / `Map.delete` become pointwise updates.
  The `botConnections` set is kept as a list in insertion order because the
  code iterates it with `forEach`.
* A missing or falsy string-valued message field (`!data.sessionId`) is
  modelled as the empty string `""`; `data.success === undefined` is
  modelled with `Option Bool`; `data.transactionData` with `Option TxnData`.
* `new Date()` timestamps are `Int` milliseconds (`Date.getTime`), passed
  into each handler as `now`.  The `timestamp` field every outbound frame
  carries is elided: it is `new Date().toISOString()` and plays no role in
  any property considered here.
* Each handler returns the new server state together with the list of
  outbound frames it emits, each tagged with the destination socket.
  `sendMessage` emits nothing when the destination socket is not open;
  `sendToBot` emits to every open bot socket in order and deletes the
  closed ones from `botConnections`, exactly as the `forEach` body does.
* The 30-second `setTimeout` at the end of `handleTransactionResult` is
  modelled as the separate function `delayedSessionCleanup`, since it runs
  outside the handler.
-/

namespace Trsocket

/-- Session status, the string union in the `Session` interface:
'created' | 'connected' | 'wallet_connected' | 'expired'. -/
inductive Status where
  | created
  | connected
  | wallet_connected
  | expired
deriving DecidableEq, Repr

/-- Transaction data prepared by the bot (the `transactionData` object);
the optional `purpose` / `metadata` fields never influence control flow and
are elided. -/
structure TxnData where
  amount : String
  receiver : String
deriving DecidableEq, Repr

/-- A session record, the `Session` interface. -/
structure Session where
  sessionId : String
  userId : String
  chatId : String
  username : String
  status : Status
  createdAt : Int
  connectedAt : Option Int
  walletConnectedAt : Option Int
  walletId : Option String
  txnLink : Option String
  transactionData : Option TxnData
deriving DecidableEq, Repr

/-- An inbound message after JSON parsing: the `type` discriminator plus
every field any handler reads.  A field absent from the concrete JSON
object is the default (`""` / `none`), matching the code's falsy checks. -/
structure Frame where
  type : String
  sessionId : String := ""
  userId : String := ""
  chatId : String := ""
  username : String := ""
  walletId : String := ""
  txnLink : String := ""
  transactionData : Option TxnData := none
  success : Option Bool := none
  signature : String := ""
  txHash : String := ""
  error : String := ""
deriving DecidableEq, Repr

/-- An outbound frame (server-generated `timestamp` elided); string fields
default to `""` meaning the field is absent from the JSON object. -/
structure OutMsg where
  type : String
  message : String := ""
  sessionId : String := ""
  userId : String := ""
  chatId : String := ""
  username : String := ""
  walletId : Option String := none
  txnLink : String := ""
  transactionData : Option TxnData := none
  success : Option Bool := none
  signature : String := ""
  txHash : String := ""
  error : String := ""
  hasTransactionData : Option Bool := none
deriving DecidableEq, Repr

/-- The global mutable stores (`sessions`, `connections`, `botConnections`)
together with the per-socket attributes and openness. -/
structure ServerState where
  sessions : String → Option Session
  connections : String → Option Nat
  botConnections : List Nat
  wsSessionId : Nat → Option String
  wsIsBot : Nat → Bool
  wsOpen : Nat → Bool

/-- An `error` reply frame with the given human-readable message. -/
def mkErr (m : String) : OutMsg := { type := "error", message := m }

/-- Function `sendMessage`: send iff the destination socket is open. -/
def sendMessage (st : ServerState) (ws : Nat) (msg : OutMsg) : List (Nat × OutMsg) :=
  if st.wsOpen ws then [(ws, msg)] else []

/-- The frames `sendToBot` emits: one copy of the message to each open bot
socket, in `botConnections` insertion order. -/
def sendToBotMsgs (st : ServerState) (msg : OutMsg) : List (Nat × OutMsg) :=
  (st.botConnections.filter st.wsOpen).map (fun b => (b, msg))

/-- The state change `sendToBot` performs: its `forEach` body deletes every
bot socket whose `readyState` is not OPEN. -/
def sendToBotState (st : ServerState) : ServerState :=
  { st with botConnections := st.botConnections.filter st.wsOpen }

/-- Function `handleBotConnect`: mark the socket as a bot, add it to
`botConnections` (a set: adding an existing member is a no-op), reply
`bot_connected`. -/
def handleBotConnect (st : ServerState) (ws : Nat) : ServerState × List (Nat × OutMsg) :=
  let st1 : ServerState :=
    { st with
      wsIsBot := fun n => if n = ws then true else st.wsIsBot n,
      botConnections :=
        if st.botConnections.contains ws then st.botConnections
        else st.botConnections ++ [ws] }
  (st1, sendMessage st1 ws { type := "bot_connected", message := "Bot connection established" })

/-- Mirrors the create-time validation
`if (transactionData) { if (!transactionData.amount || !transactionData.receiver) ... }`. -/
def badTxnData : Option TxnData → Bool
  | some td => decide (td.amount = "") || decide (td.receiver = "")
  | none => false

/-- The fresh record `handleCreateSession` stores: status `created`,
`createdAt` now, all later-phase fields null. -/
def newSessionOf (now : Int) (f : Frame) : Session :=
  { sessionId := f.sessionId, userId := f.userId, chatId := f.chatId,
    username := f.username, status := Status.created, createdAt := now,
    connectedAt := none, walletConnectedAt := none, walletId := none,
    txnLink := none, transactionData := f.transactionData }

/-- Function `handleCreateSession`: validate required fields and the
optional transaction data, then unconditionally `sessions.set(sessionId, ...)`
(note: no check whether the id already exists) and reply `session_created`. -/
def handleCreateSession (st : ServerState) (ws : Nat) (now : Int) (f : Frame) :
    ServerState × List (Nat × OutMsg) :=
  if f.sessionId = "" ∨ f.userId = "" ∨ f.chatId = "" ∨ f.username = "" then
    (st, sendMessage st ws
      (mkErr "Missing required session data (sessionId, userId, chatId, username)"))
  else if badTxnData f.transactionData then
    (st, sendMessage st ws (mkErr "Transaction data must include amount and receiver"))
  else
    let st1 : ServerState :=
      { st with sessions := fun k => if k = f.sessionId then some (newSessionOf now f) else st.sessions k }
    (st1, sendMessage st1 ws
      { type := "session_created", sessionId := f.sessionId,
        hasTransactionData := some f.transactionData.isSome })

/-- Function `handleInitSession`: reject a missing id, an unknown or
expired session, or a session whose status is already `connected` or
`wallet_connected`; otherwise register the socket in `connections`, stamp
the socket with the session id, set status `connected` and `connectedAt`,
and reply `session_initialized`. -/
def handleInitSession (st : ServerState) (ws : Nat) (now : Int) (f : Frame) :
    ServerState × List (Nat × OutMsg) :=
  if f.sessionId = "" then
    (st, sendMessage st ws (mkErr "Session ID is required"))
  else
    match st.sessions f.sessionId with
    | none => (st, sendMessage st ws (mkErr "Invalid or expired session"))
    | some s =>
      if s.status = Status.expired then
        (st, sendMessage st ws (mkErr "Invalid or expired session"))
      else if s.status = Status.connected ∨ s.status = Status.wallet_connected then
        (st, sendMessage st ws (mkErr "Session already in use"))
      else
        let s1 : Session := { s with status := Status.connected, connectedAt := some now }
        let st1 : ServerState :=
          { st with
            connections := fun k => if k = f.sessionId then some ws else st.connections k,
            wsSessionId := fun n => if n = ws then some f.sessionId else st.wsSessionId n,
            sessions := fun k => if k = f.sessionId then some s1 else st.sessions k }
        (st1, sendMessage st1 ws
          { type := "session_initialized", userId := s.userId, username := s.username,
            sessionId := f.sessionId, transactionData := s.transactionData })

/-- Function `handleWalletConnected`: reject a missing id or wallet id and
an unknown session; otherwise (with NO check of the current status) set
`walletId`, `txnLink`, status `wallet_connected` and `walletConnectedAt`,
broadcast `wallet_connected` to the bots, and ack the frontend. -/
def handleWalletConnected (st : ServerState) (ws : Nat) (now : Int) (f : Frame) :
    ServerState × List (Nat × OutMsg) :=
  if f.sessionId = "" ∨ f.walletId = "" then
    (st, sendMessage st ws (mkErr "Session ID and wallet ID required"))
  else
    match st.sessions f.sessionId with
    | none => (st, sendMessage st ws (mkErr "Invalid session"))
    | some s =>
      let s1 : Session :=
        { s with walletId := some f.walletId, txnLink := some f.txnLink,
                 status := Status.wallet_connected, walletConnectedAt := some now }
      let st1 : ServerState :=
        { st with sessions := fun k => if k = f.sessionId then some s1 else st.sessions k }
      let wmsg : OutMsg :=
        { type := "wallet_connected", userId := s.userId, chatId := s.chatId,
          username := s.username, walletId := some f.walletId, txnLink := f.txnLink,
          sessionId := f.sessionId }
      (sendToBotState st1,
       sendToBotMsgs st1 wmsg ++
         sendMessage (sendToBotState st1) ws
           { type := "wallet_connection_received", message := "Wallet connected successfully!" })

/-- Function `handleProcessTransaction`: requires the session to exist with
status exactly `wallet_connected` and a registered frontend connection;
forwards the transaction data to the frontend socket and confirms to the
requesting bot.  The session state is never mutated. -/
def handleProcessTransaction (st : ServerState) (ws : Nat) (f : Frame) :
    ServerState × List (Nat × OutMsg) :=
  if f.sessionId = "" ∨ f.transactionData = none then
    (st, sendMessage st ws (mkErr "Session ID and transaction data are required"))
  else
    match st.sessions f.sessionId with
    | none =>
      (st, sendMessage st ws (mkErr "Invalid session, wallet not connected, or session already used"))
    | some s =>
      if s.status = Status.wallet_connected then
        match st.connections f.sessionId with
        | none => (st, sendMessage st ws (mkErr "Frontend not connected"))
        | some frontendWs =>
          (st, sendMessage st frontendWs
                 { type := "process_transaction", transactionData := f.transactionData } ++
               sendMessage st ws
                 { type := "transaction_sent",
                   message := "Transaction sent to frontend for processing" })
      else
        (st, sendMessage st ws (mkErr "Invalid session, wallet not connected, or session already used"))

/-- Function `handleTransactionResult`: requires `success` present and a
session id naming a session that exists and is not already `expired`
(no check of which socket sent the frame, and no check that the status is
`wallet_connected`); sets status `expired`, broadcasts
`transaction_completed` to the bots, and acks the sender.  The trailing
30-second `setTimeout` deletion is `delayedSessionCleanup` below. -/
def handleTransactionResult (st : ServerState) (ws : Nat) (f : Frame) :
    ServerState × List (Nat × OutMsg) :=
  if f.success = none ∨ f.sessionId = "" then
    (st, sendMessage st ws (mkErr "Success status and session ID are required"))
  else
    match st.sessions f.sessionId with
    | none => (st, sendMessage st ws (mkErr "Invalid or expired session"))
    | some s =>
      if s.status = Status.expired then
        (st, sendMessage st ws (mkErr "Invalid or expired session"))
      else
        let s1 : Session := { s with status := Status.expired }
        let st1 : ServerState :=
          { st with sessions := fun k => if k = f.sessionId then some s1 else st.sessions k }
        let succ : Bool := f.success.getD false
        let rmsg : OutMsg :=
          { type := "transaction_completed", success := f.success, userId := s.userId,
            chatId := s.chatId, username := s.username, walletId := s.walletId,
            sessionId := f.sessionId,
            signature := if succ ∧ f.signature ≠ "" then f.signature else "",
            txHash := if succ ∧ f.txHash ≠ "" then f.txHash else "",
            error := f.error }
        (sendToBotState st1,
         sendToBotMsgs st1 rmsg ++
           sendMessage (sendToBotState st1) ws
             { type := "transaction_result_received",
               message := "Transaction result sent to bot. Session is now expired." })

/-- Function `handleMessage` after a successful `JSON.parse`: the `switch`
on the `type` discriminator.  The `default` arm replies with the fixed
message "Unknown message type". -/
def handleMessage (st : ServerState) (ws : Nat) (now : Int) (f : Frame) :
    ServerState × List (Nat × OutMsg) :=
  if f.type = "bot_connect" then handleBotConnect st ws
  else if f.type = "create_session" then handleCreateSession st ws now f
  else if f.type = "init_session" then handleInitSession st ws now f
  else if f.type = "wallet_connected" then handleWalletConnected st ws now f
  else if f.type = "process_transaction" then handleProcessTransaction st ws f
  else if f.type = "transaction_result" then handleTransactionResult st ws f
  else if f.type = "ping" then (st, sendMessage st ws { type := "pong" })
  else (st, sendMessage st ws (mkErr "Unknown message type"))

/-- The seven recognized values of the `type` discriminator. -/
def knownMessageTypes : List String :=
  ["bot_connect", "create_session", "init_session", "wallet_connected",
   "process_transaction", "transaction_result", "ping"]

/-- Function `cleanupConnection`, run on socket close or error: drop the
socket's session binding from `connections` (if it had one) and its bot
membership; session records and statuses are untouched. -/
def cleanupConnection (st : ServerState) (ws : Nat) : ServerState :=
  let st1 : ServerState :=
    match st.wsSessionId ws with
    | some sid => { st with connections := fun k => if k = sid then none else st.connections k }
    | none => st
  if st1.wsIsBot ws then
    { st1 with botConnections := st1.botConnections.filter (fun b => b != ws) }
  else st1

/-- The one-hour age ceiling, in milliseconds: `60 * 60 * 1000`. -/
def oneHour : Int := 60 * 60 * 1000

/-- The sweep predicate: `sessionAge > oneHour || session.status === 'expired'`. -/
def sweepMarked (st : ServerState) (now : Int) (sid : String) : Bool :=
  match st.sessions sid with
  | some s => decide (now - s.createdAt > oneHour) || decide (s.status = Status.expired)
  | none => false

/-- Function `cleanupExpiredSessions`: collect every session id whose age
exceeds one hour or whose status is already `expired`, then delete each
collected id from both `sessions` and `connections`.  Iterated `Map.delete`
over the collected id list is exactly pointwise removal of the marked ids. -/
def cleanupExpiredSessions (st : ServerState) (now : Int) : ServerState :=
  { st with
    sessions := fun sid => if sweepMarked st now sid then none else st.sessions sid,
    connections := fun sid => if sweepMarked st now sid then none else st.connections sid }

/-- The 30-second delayed deletion scheduled at the end of
`handleTransactionResult`: `sessions.delete(sessionId); connections.delete(sessionId)`. -/
def delayedSessionCleanup (st : ServerState) (sid : String) : ServerState :=
  { st with
    sessions := fun k => if k = sid then none else st.sessions k,
    connections := fun k => if k = sid then none else st.connections k }

/-- The status of the named session, if present. -/
def statusOf (st : ServerState) (sid : String) : Option Status :=
  (st.sessions sid).map Session.status

/-- A concrete session record with the given status, for tests of the
handlers at specific states. -/
def sampleSession (s : Status) : Session :=
  { sessionId := "s1", userId := "u1", chatId := "c1", username := "alice",
    status := s, createdAt := 0, connectedAt := none, walletConnectedAt := none,
    walletId := none, txnLink := none, transactionData := none }

/-- A concrete server state: one session "s1" with the given status, one
bot socket 9, no client-leg connection registered, all sockets open. -/
def sampleState (s : Status) : ServerState :=
  { sessions := fun k => if k = "s1" then some (sampleSession s) else none,
    connections := fun _ => none,
    botConnections := [9],
    wsSessionId := fun _ => none,
    wsIsBot := fun n => n == 9,
    wsOpen := fun _ => true }

/-- A concrete duplicate `create_session` frame naming the already-present
id "s1" but a different owner. -/
def dupCreateFrame : Frame :=
  { type := "create_session", sessionId := "s1", userId := "u2", chatId := "c2",
    username := "bob" }

/-- A concrete `process_transaction` frame for session "s1" carrying
transaction data. -/
def dispatchFrame : Frame :=
  { type := "process_transaction", sessionId := "s1",
    transactionData := some { amount := "5", receiver := "r1" } }

/-- A concrete server state in which session "s1" has reached
`wallet_connected` with socket 4 registered as its client leg, one bot
socket 9, all sockets open. -/
def linkedState : ServerState :=
  { sessions := fun k =>
      if k = "s1" then some (sampleSession Status.wallet_connected) else none,
    connections := fun k => if k = "s1" then some 4 else none,
    botConnections := [9],
    wsSessionId := fun n => if n = 4 then some "s1" else none,
    wsIsBot := fun n => n == 9,
    wsOpen := fun _ => true }

/-- The record of session "s1" right after a successful bind at t = 5. -/
def boundSession : Session :=
  { sampleSession Status.connected with connectedAt := some 5 }

/-- A concrete server state in which session "s1" has been bound: status
`connected`, socket 4 registered as its client leg and stamped with the
session id, one bot socket 9, all sockets open. -/
def boundState : ServerState :=
  { sessions := fun k => if k = "s1" then some boundSession else none,
    connections := fun k => if k = "s1" then some 4 else none,
    botConnections := [9],
    wsSessionId := fun n => if n = 4 then some "s1" else none,
    wsIsBot := fun n => n == 9,
    wsOpen := fun _ => true }

/-! Dispatch lemmas: the `switch` in `handleMessage` routes each known
`type` value to its handler. -/

lemma handleMessage_bot_connect (st : ServerState) (ws : Nat) (now : Int) (f : Frame)
    (h : f.type = "bot_connect") : handleMessage st ws now f = handleBotConnect st ws := by
  simp [handleMessage, h]

lemma handleMessage_create (st : ServerState) (ws : Nat) (now : Int) (f : Frame)
    (h : f.type = "create_session") : handleMessage st ws now f = handleCreateSession st ws now f := by
  simp [handleMessage, h]

lemma handleMessage_init (st : ServerState) (ws : Nat) (now : Int) (f : Frame)
    (h : f.type = "init_session") : handleMessage st ws now f = handleInitSession st ws now f := by
  simp [handleMessage, h]

lemma handleMessage_wallet (st : ServerState) (ws : Nat) (now : Int) (f : Frame)
    (h : f.type = "wallet_connected") :
    handleMessage st ws now f = handleWalletConnected st ws now f := by
  simp [handleMessage, h]

lemma handleMessage_process (st : ServerState) (ws : Nat) (now : Int) (f : Frame)
    (h : f.type = "process_transaction") :
    handleMessage st ws now f = handleProcessTransaction st ws f := by
  simp [handleMessage, h]

lemma handleMessage_txnResult (st : ServerState) (ws : Nat) (now : Int) (f : Frame)
    (h : f.type = "transaction_result") :
    handleMessage st ws now f = handleTransactionResult st ws f := by
  simp [handleMessage, h]

/-! Branch characterizations of the individual handlers. -/

lemma create_missing (st : ServerState) (ws : Nat) (now : Int) (f : Frame)
    (h : f.sessionId = "" ∨ f.userId = "" ∨ f.chatId = "" ∨ f.username = "") :
    handleCreateSession st ws now f =
      (st, sendMessage st ws
        (mkErr "Missing required session data (sessionId, userId, chatId, username)")) := by
  simp [handleCreateSession, h]

lemma create_badTxn (st : ServerState) (ws : Nat) (now : Int) (f : Frame)
    (h1 : f.sessionId ≠ "") (h2 : f.userId ≠ "") (h3 : f.chatId ≠ "") (h4 : f.username ≠ "")
    (h5 : badTxnData f.transactionData = true) :
    handleCreateSession st ws now f =
      (st, sendMessage st ws (mkErr "Transaction data must include amount and receiver")) := by
  simp [handleCreateSession, h1, h2, h3, h4, h5]

lemma create_success (st : ServerState) (ws : Nat) (now : Int) (f : Frame)
    (h1 : f.sessionId ≠ "") (h2 : f.userId ≠ "") (h3 : f.chatId ≠ "") (h4 : f.username ≠ "")
    (h5 : badTxnData f.transactionData = false) :
    handleCreateSession st ws now f =
      ({ st with sessions := fun k =>
           if k = f.sessionId then some (newSessionOf now f) else st.sessions k },
       sendMessage st ws
         { type := "session_created", sessionId := f.sessionId,
           hasTransactionData := some f.transactionData.isSome }) := by
  simp [handleCreateSession, sendMessage, h1, h2, h3, h4, h5]

lemma initSession_missing (st : ServerState) (ws : Nat) (now : Int) (f : Frame)
    (h : f.sessionId = "") :
    handleInitSession st ws now f = (st, sendMessage st ws (mkErr "Session ID is required")) := by
  simp [handleInitSession, h]

lemma initSession_unknown (st : ServerState) (ws : Nat) (now : Int) (f : Frame)
    (h1 : f.sessionId ≠ "") (hget : st.sessions f.sessionId = none) :
    handleInitSession st ws now f =
      (st, sendMessage st ws (mkErr "Invalid or expired session")) := by
  simp [handleInitSession, h1, hget]

lemma initSession_terminal (st : ServerState) (ws : Nat) (now : Int) (f : Frame) (s : Session)
    (h1 : f.sessionId ≠ "") (hget : st.sessions f.sessionId = some s)
    (h : s.status = Status.expired) :
    handleInitSession st ws now f =
      (st, sendMessage st ws (mkErr "Invalid or expired session")) := by
  simp [handleInitSession, h1, hget, h]

lemma initSession_inUse (st : ServerState) (ws : Nat) (now : Int) (f : Frame) (s : Session)
    (h1 : f.sessionId ≠ "") (hget : st.sessions f.sessionId = some s)
    (h : s.status = Status.connected ∨ s.status = Status.wallet_connected) :
    handleInitSession st ws now f =
      (st, sendMessage st ws (mkErr "Session already in use")) := by
  rcases h with h | h <;> simp [handleInitSession, h1, hget, h]

lemma initSession_success (st : ServerState) (ws : Nat) (now : Int) (f : Frame) (s : Session)
    (h1 : f.sessionId ≠ "") (hget : st.sessions f.sessionId = some s)
    (h : s.status = Status.created) :
    handleInitSession st ws now f =
      ({ st with
          connections := fun k => if k = f.sessionId then some ws else st.connections k,
          wsSessionId := fun n => if n = ws then some f.sessionId else st.wsSessionId n,
          sessions := fun k =>
            if k = f.sessionId then
              some { s with status := Status.connected, connectedAt := some now }
            else st.sessions k },
       sendMessage st ws
         { type := "session_initialized", userId := s.userId, username := s.username,
           sessionId := f.sessionId, transactionData := s.transactionData }) := by
  simp [handleInitSession, sendMessage, h1, hget, h]

lemma wallet_missing (st : ServerState) (ws : Nat) (now : Int) (f : Frame)
    (h : f.sessionId = "" ∨ f.walletId = "") :
    handleWalletConnected st ws now f =
      (st, sendMessage st ws (mkErr "Session ID and wallet ID required")) := by
  rcases h with h | h <;> simp [handleWalletConnected, h]

lemma wallet_unknown (st : ServerState) (ws : Nat) (now : Int) (f : Frame)
    (h1 : f.sessionId ≠ "") (h2 : f.walletId ≠ "")
    (hget : st.sessions f.sessionId = none) :
    handleWalletConnected st ws now f = (st, sendMessage st ws (mkErr "Invalid session")) := by
  simp [handleWalletConnected, h1, h2, hget]

lemma wallet_success (st : ServerState) (ws : Nat) (now : Int) (f : Frame) (s : Session)
    (h1 : f.sessionId ≠ "") (h2 : f.walletId ≠ "")
    (hget : st.sessions f.sessionId = some s) :
    handleWalletConnected st ws now f =
      (sendToBotState
        { st with sessions := fun k =>
            if k = f.sessionId then
              some { s with walletId := some f.walletId, txnLink := some f.txnLink,
                            status := Status.wallet_connected, walletConnectedAt := some now }
            else st.sessions k },
       sendToBotMsgs st
         { type := "wallet_connected", userId := s.userId, chatId := s.chatId,
           username := s.username, walletId := some f.walletId, txnLink := f.txnLink,
           sessionId := f.sessionId } ++
         sendMessage st ws
           { type := "wallet_connection_received",
             message := "Wallet connected successfully!" }) := by
  simp [handleWalletConnected, sendToBotState, sendToBotMsgs, sendMessage, h1, h2, hget]

lemma process_fst (st : ServerState) (ws : Nat) (f : Frame) :
    (handleProcessTransaction st ws f).1 = st := by
  unfold handleProcessTransaction
  split
  · rfl
  · split
    · rfl
    · split
      · split
        · rfl
        · rfl
      · rfl

lemma process_success (st : ServerState) (ws : Nat) (f : Frame) (s : Session) (cws : Nat)
    (h1 : f.sessionId ≠ "") (htd : f.transactionData ≠ none)
    (hget : st.sessions f.sessionId = some s) (hst : s.status = Status.wallet_connected)
    (hc : st.connections f.sessionId = some cws) :
    handleProcessTransaction st ws f =
      (st, sendMessage st cws
             { type := "process_transaction", transactionData := f.transactionData } ++
           sendMessage st ws
             { type := "transaction_sent",
               message := "Transaction sent to frontend for processing" }) := by
  simp [handleProcessTransaction, h1, htd, hget, hst, hc]

lemma process_reject (st : ServerState) (ws : Nat) (f : Frame)
    (h1 : f.sessionId ≠ "") (htd : f.transactionData ≠ none)
    (h : statusOf st f.sessionId ≠ some Status.wallet_connected ∨
         st.connections f.sessionId = none) :
    (handleProcessTransaction st ws f).1 = st ∧
    ∃ m, (handleProcessTransaction st ws f).2 = sendMessage st ws (mkErr m) := by
  refine ⟨process_fst st ws f, ?_⟩
  rcases hget : st.sessions f.sessionId with _ | s
  · exact ⟨"Invalid session, wallet not connected, or session already used",
      by simp [handleProcessTransaction, h1, htd, hget]⟩
  by_cases hst : s.status = Status.wallet_connected
  · rcases h with h | hc
    · exact absurd (by simp [statusOf, hget, hst]) h
    · exact ⟨"Frontend not connected",
        by simp [handleProcessTransaction, h1, htd, hget, hst, hc]⟩
  · exact ⟨"Invalid session, wallet not connected, or session already used",
      by simp [handleProcessTransaction, h1, htd, hget, hst]⟩

lemma txnResult_missing (st : ServerState) (ws : Nat) (f : Frame)
    (h : f.success = none ∨ f.sessionId = "") :
    handleTransactionResult st ws f =
      (st, sendMessage st ws (mkErr "Success status and session ID are required")) := by
  rcases h with h | h <;> simp [handleTransactionResult, h]

lemma txnResult_unknown (st : ServerState) (ws : Nat) (f : Frame) (b : Bool)
    (hb : f.success = some b) (h1 : f.sessionId ≠ "")
    (hget : st.sessions f.sessionId = none) :
    handleTransactionResult st ws f =
      (st, sendMessage st ws (mkErr "Invalid or expired session")) := by
  simp [handleTransactionResult, hb, h1, hget]

lemma txnResult_terminal (st : ServerState) (ws : Nat) (f : Frame) (s : Session) (b : Bool)
    (hb : f.success = some b) (h1 : f.sessionId ≠ "")
    (hget : st.sessions f.sessionId = some s) (h : s.status = Status.expired) :
    handleTransactionResult st ws f =
      (st, sendMessage st ws (mkErr "Invalid or expired session")) := by
  simp [handleTransactionResult, hb, h1, hget, h]

lemma txnResult_success (st : ServerState) (ws : Nat) (f : Frame) (s : Session) (b : Bool)
    (hb : f.success = some b) (h1 : f.sessionId ≠ "")
    (hget : st.sessions f.sessionId = some s) (hexp : s.status ≠ Status.expired) :
    handleTransactionResult st ws f =
      (sendToBotState
        { st with sessions := fun k =>
            if k = f.sessionId then some { s with status := Status.expired }
            else st.sessions k },
       sendToBotMsgs st
         { type := "transaction_completed", success := some b, userId := s.userId,
           chatId := s.chatId, username := s.username, walletId := s.walletId,
           sessionId := f.sessionId,
           signature := if b = true ∧ f.signature ≠ "" then f.signature else "",
           txHash := if b = true ∧ f.txHash ≠ "" then f.txHash else "",
           error := f.error } ++
         sendMessage st ws
           { type := "transaction_result_received",
             message := "Transaction result sent to bot. Session is now expired." }) := by
  simp [handleTransactionResult, sendToBotState, sendToBotMsgs, sendMessage, hb, h1, hget, hexp]

/-! Claim theorems. -/

/-- C5: replaying a `transaction_result` for a session that has already
reached the terminal `expired` status is rejected with an error reply and
is not reprocessed: the server state is returned unchanged and the output
is exactly the one error frame to the sender — in particular no
`transaction_completed` broadcast is emitted. -/
theorem c5_replay_rejected (st : ServerState) (ws : Nat) (now : Int) (f : Frame)
    (s : Session) (b : Bool)
    (hty : f.type = "transaction_result") (hb : f.success = some b)
    (hsid : f.sessionId ≠ "") (hget : st.sessions f.sessionId = some s)
    (hexp : s.status = Status.expired) :
    handleMessage st ws now f =
      (st, sendMessage st ws (mkErr "Invalid or expired session")) := by
  rw [handleMessage_txnResult st ws now f hty]
  exact txnResult_terminal st ws f s b hb hsid hget hexp

/-- Witness for c5_replay_rejected: a second `transaction_result` for the
already-expired session "s1" yields exactly the error reply, with the
state unchanged. -/
theorem c5_replay_rejected_witness :
    handleMessage (sampleState Status.expired) 5 0
        { type := "transaction_result", sessionId := "s1", success := some true } =
      (sampleState Status.expired,
       sendMessage (sampleState Status.expired) 5 (mkErr "Invalid or expired session")) :=
  c5_replay_rejected (sampleState Status.expired) 5 0
    { type := "transaction_result", sessionId := "s1", success := some true }
    (sampleSession Status.expired) true rfl rfl (by decide) (by decide) (by decide)

/-- C7: on a sweeper run, every stored session older than one hour is
removed from both the session store and the connection registry, and every
session at or under the ceiling that is not already `expired` is left
untouched (its registry entry included). -/
theorem c7_sweeper (st : ServerState) (now : Int) (sid : String) (s : Session)
    (hget : st.sessions sid = some s) :
    (now - s.createdAt > oneHour →
      (cleanupExpiredSessions st now).sessions sid = none ∧
      (cleanupExpiredSessions st now).connections sid = none) ∧
    (¬ now - s.createdAt > oneHour → s.status ≠ Status.expired →
      (cleanupExpiredSessions st now).sessions sid = some s ∧
      (cleanupExpiredSessions st now).connections sid = st.connections sid) := by
  constructor
  · intro h
    constructor <;> simp [cleanupExpiredSessions, sweepMarked, hget, h]
  · intro h1 h2
    constructor <;> simp [cleanupExpiredSessions, sweepMarked, hget, h1, h2]

/-- Witness for c7_sweeper: sweeping at t = 3600001 removes the session
created at t = 0 from both maps; sweeping at exactly t = 3600000 (age equal
to the ceiling) leaves the non-terminal session untouched. -/
theorem c7_sweeper_witness :
    ((cleanupExpiredSessions (sampleState Status.created) 3600001).sessions "s1" = none ∧
     (cleanupExpiredSessions (sampleState Status.created) 3600001).connections "s1" = none) ∧
    ((cleanupExpiredSessions (sampleState Status.created) 3600000).sessions "s1" =
        some (sampleSession Status.created) ∧
     (cleanupExpiredSessions (sampleState Status.created) 3600000).connections "s1" =
        (sampleState Status.created).connections "s1") :=
  ⟨(c7_sweeper (sampleState Status.created) 3600001 "s1" (sampleSession Status.created)
      (by decide)).1 (by decide),
   (c7_sweeper (sampleState Status.created) 3600000 "s1" (sampleSession Status.created)
      (by decide)).2 (by decide) (by decide)⟩

/-- C2 counterexample: the claim says an outcome report for a session that
never entered the in-flight/resource-linked step is rejected with an error
and no broadcast.  In the code a `transaction_result` for a session still
in status `created` (no prior `process_transaction`, not even a bound
client) is fully processed: the session is expired and
`transaction_completed` is broadcast to the bot socket 9. -/
theorem c2_counterexample :
    statusOf ((handleMessage (sampleState Status.created) 5 0
      { type := "transaction_result", sessionId := "s1", success := some true }).1) "s1" =
      some Status.expired ∧
    ((handleMessage (sampleState Status.created) 5 0
      { type := "transaction_result", sessionId := "s1", success := some true }).2.map
        (fun p => (p.1, p.2.type))) =
      [(9, "transaction_completed"), (5, "transaction_result_received")] := by
  decide

/-- C2 (amended): `wallet_connected` fails with a typed error reply and an
unchanged state only when the named session is unknown (any existing
session is accepted in any status); `transaction_result` fails with a typed
error reply and an unchanged state when the session is unknown or already
expired — the status required by the spec's transition table is not
checked, so a result with no prior dispatch is processed. -/
theorem c2_reject_conditions (st : ServerState) (ws : Nat) (now : Int) (f : Frame) :
    (f.type = "wallet_connected" → f.sessionId ≠ "" → f.walletId ≠ "" →
      st.sessions f.sessionId = none →
      handleMessage st ws now f = (st, sendMessage st ws (mkErr "Invalid session"))) ∧
    (f.type = "transaction_result" → ∀ b, f.success = some b → f.sessionId ≠ "" →
      (st.sessions f.sessionId = none ∨ statusOf st f.sessionId = some Status.expired) →
      handleMessage st ws now f =
        (st, sendMessage st ws (mkErr "Invalid or expired session"))) := by
  constructor
  · intro hty h1 h2 hget
    rw [handleMessage_wallet st ws now f hty]
    exact wallet_unknown st ws now f h1 h2 hget
  · intro hty b hb h1 h
    rw [handleMessage_txnResult st ws now f hty]
    rcases hmem : st.sessions f.sessionId with _ | s
    · exact txnResult_unknown st ws f b hb h1 hmem
    · rcases h with hget | hstat
      · rw [hmem] at hget
        exact absurd hget (by simp)
      · have hs : s.status = Status.expired := by
          simpa [statusOf, hmem] using hstat
        exact txnResult_terminal st ws f s b hb h1 hmem hs

/-- Witness for c2_reject_conditions: a `wallet_connected` naming the
unknown id "s2" and a `transaction_result` naming the expired session "s1"
each produce exactly the typed error reply with the state unchanged. -/
theorem c2_reject_conditions_witness :
    handleMessage (sampleState Status.created) 5 0
        { type := "wallet_connected", sessionId := "s2", walletId := "w1" } =
      (sampleState Status.created,
       sendMessage (sampleState Status.created) 5 (mkErr "Invalid session")) ∧
    handleMessage (sampleState Status.expired) 6 0
        { type := "transaction_result", sessionId := "s1", success := some false } =
      (sampleState Status.expired,
       sendMessage (sampleState Status.expired) 6 (mkErr "Invalid or expired session")) :=
  ⟨(c2_reject_conditions (sampleState Status.created) 5 0
      { type := "wallet_connected", sessionId := "s2", walletId := "w1" }).1
      rfl (by decide) (by decide) (by decide),
   (c2_reject_conditions (sampleState Status.expired) 6 0
      { type := "transaction_result", sessionId := "s1", success := some false }).2
      rfl false rfl (by decide) (Or.inr (by decide))⟩

/-- C3 counterexample: the claim says a `create_session` whose sessionId
already exists is answered with an error and the existing record is left
unchanged.  In the code the duplicate create for the existing session "s1"
(status `connected`, owner "u1") is answered with `session_created` and the
record is overwritten by a fresh `created`-status record owned by "u2". -/
theorem c3_counterexample :
    (handleMessage (sampleState Status.connected) 4 99
      { type := "create_session", sessionId := "s1", userId := "u2", chatId := "c2",
        username := "bob" }).2 =
      [(4, { type := "session_created", sessionId := "s1",
             hasTransactionData := some false })] ∧
    (handleMessage (sampleState Status.connected) 4 99
      { type := "create_session", sessionId := "s1", userId := "u2", chatId := "c2",
        username := "bob" }).1.sessions "s1" =
      some { sessionId := "s1", userId := "u2", chatId := "c2", username := "bob",
             status := Status.created, createdAt := 99, connectedAt := none,
             walletConnectedAt := none, walletId := none, txnLink := none,
             transactionData := none } := by
  decide

/-- C3 (amended): a well-formed `create_session` is never rejected for a
duplicate id — whether or not the sessionId already exists, the store
entry is overwritten with a fresh `created`-status record and the reply is
`session_created`. -/
theorem c3_create_overwrites (st : ServerState) (ws : Nat) (now : Int) (f : Frame)
    (hty : f.type = "create_session") (h1 : f.sessionId ≠ "") (h2 : f.userId ≠ "")
    (h3 : f.chatId ≠ "") (h4 : f.username ≠ "")
    (h5 : badTxnData f.transactionData = false) :
    handleMessage st ws now f =
      ({ st with sessions := fun k =>
           if k = f.sessionId then some (newSessionOf now f) else st.sessions k },
       sendMessage st ws
         { type := "session_created", sessionId := f.sessionId,
           hasTransactionData := some f.transactionData.isSome }) := by
  rw [handleMessage_create st ws now f hty]
  exact create_success st ws now f h1 h2 h3 h4 h5

/-- Witness for c3_create_overwrites: the duplicate create for the already
`connected` session "s1" overwrites it and replies `session_created`. -/
theorem c3_create_overwrites_witness :
    (handleMessage (sampleState Status.connected) 4 99 dupCreateFrame).1.sessions "s1" =
      some (newSessionOf 99 dupCreateFrame) ∧
    (handleMessage (sampleState Status.connected) 4 99 dupCreateFrame).2 =
      [(4, { type := "session_created", sessionId := "s1",
             hasTransactionData := some false })] := by
  rw [c3_create_overwrites (sampleState Status.connected) 4 99 dupCreateFrame
    rfl (by decide) (by decide) (by decide) (by decide) (by decide)]
  exact ⟨by decide, by decide⟩

/-- C4 counterexample: the claim says a bind fails exactly when the id is
unknown, the session is terminal, or the session has a live client-leg
connection.  Here session "s1" is known, non-terminal (`connected`) and has
NO registered client-leg connection (its client already disconnected), yet
the bind is still rejected: the code tests the status, not the registry. -/
theorem c4_counterexample :
    (sampleState Status.connected).connections "s1" = none ∧
    statusOf (sampleState Status.connected) "s1" = some Status.connected ∧
    handleMessage (sampleState Status.connected) 7 0
        { type := "init_session", sessionId := "s1" } =
      (sampleState Status.connected,
       sendMessage (sampleState Status.connected) 7 (mkErr "Session already in use")) := by
  refine ⟨by decide, by decide, ?_⟩
  rw [handleMessage_init (sampleState Status.connected) 7 0
    { type := "init_session", sessionId := "s1" } rfl]
  exact initSession_inUse (sampleState Status.connected) 7 0
    { type := "init_session", sessionId := "s1" } (sampleSession Status.connected)
    (by decide) (by decide) (Or.inl (by decide))

/-- C4 (amended): a bind (`init_session`) is answered with an error and
leaves the state unchanged exactly when the sessionId is missing or the
session's status is anything other than `created` (unknown, expired, or
already `connected`/`wallet_connected` — regardless of whether a client
connection is currently registered); otherwise the bind succeeds: status
becomes `connected`, `connectedAt` is set, and the socket is registered in
the connection registry for that sessionId. -/
theorem c4_bind_conditions (st : ServerState) (ws : Nat) (now : Int) (f : Frame)
    (hty : f.type = "init_session") :
    ((f.sessionId = "" ∨ statusOf st f.sessionId ≠ some Status.created) →
      (handleMessage st ws now f).1 = st ∧
      ∃ m, (handleMessage st ws now f).2 = sendMessage st ws (mkErr m)) ∧
    (∀ s, f.sessionId ≠ "" → st.sessions f.sessionId = some s →
      s.status = Status.created →
      handleMessage st ws now f =
        ({ st with
            connections := fun k => if k = f.sessionId then some ws else st.connections k,
            wsSessionId := fun n => if n = ws then some f.sessionId else st.wsSessionId n,
            sessions := fun k =>
              if k = f.sessionId then
                some { s with status := Status.connected, connectedAt := some now }
              else st.sessions k },
         sendMessage st ws
           { type := "session_initialized", userId := s.userId, username := s.username,
             sessionId := f.sessionId, transactionData := s.transactionData })) := by
  rw [handleMessage_init st ws now f hty]
  constructor
  · intro h
    by_cases h1 : f.sessionId = ""
    · rw [initSession_missing st ws now f h1]
      exact ⟨rfl, _, rfl⟩
    · rcases hget : st.sessions f.sessionId with _ | s
      · rw [initSession_unknown st ws now f h1 hget]
        exact ⟨rfl, _, rfl⟩
      · have hs : s.status ≠ Status.created := by
          rcases h with h | h
          · exact absurd h h1
          · intro hc
            exact h (by simp [statusOf, hget, hc])
        cases hstat : s.status with
        | created => exact absurd hstat hs
        | connected =>
          rw [initSession_inUse st ws now f s h1 hget (Or.inl hstat)]
          exact ⟨rfl, _, rfl⟩
        | wallet_connected =>
          rw [initSession_inUse st ws now f s h1 hget (Or.inr hstat)]
          exact ⟨rfl, _, rfl⟩
        | expired =>
          rw [initSession_terminal st ws now f s h1 hget hstat]
          exact ⟨rfl, _, rfl⟩
  · intro s h1 hget hs
    exact initSession_success st ws now f s h1 hget hs

/-- Witness for c4_bind_conditions: binding the expired session "s1" is
rejected with an error and no state change; binding the fresh `created`
session "s1" succeeds, registering socket 7 and setting status
`connected`. -/
theorem c4_bind_conditions_witness :
    ((handleMessage (sampleState Status.expired) 7 0
        { type := "init_session", sessionId := "s1" }).1 = sampleState Status.expired ∧
     ∃ m, (handleMessage (sampleState Status.expired) 7 0
        { type := "init_session", sessionId := "s1" }).2 =
          sendMessage (sampleState Status.expired) 7 (mkErr m)) ∧
    ((handleMessage (sampleState Status.created) 7 42
        { type := "init_session", sessionId := "s1" }).1.connections "s1" = some 7 ∧
     statusOf (handleMessage (sampleState Status.created) 7 42
        { type := "init_session", sessionId := "s1" }).1 "s1" = some Status.connected ∧
     (handleMessage (sampleState Status.created) 7 42
        { type := "init_session", sessionId := "s1" }).2 =
       [(7, { type := "session_initialized", userId := "u1", username := "alice",
              sessionId := "s1" })]) := by
  constructor
  · exact (c4_bind_conditions (sampleState Status.expired) 7 0
      { type := "init_session", sessionId := "s1" } rfl).1 (Or.inr (by decide))
  · have h := (c4_bind_conditions (sampleState Status.created) 7 42
      { type := "init_session", sessionId := "s1" } rfl).2
      (sampleSession Status.created) (by decide) (by decide) (by decide)
    rw [h]
    exact ⟨by decide, by decide, by decide⟩

/-- C6: a `process_transaction` for a session in status `wallet_connected`
with a registered client connection forwards the transaction data to the
bound client socket and confirms to the requester; if the session is
missing, in any other status, or has no registered client connection, the
requester gets an error reply and nothing is forwarded (the output is the
single error frame and the state is unchanged). -/
theorem c6_dispatch_work (st : ServerState) (ws : Nat) (now : Int) (f : Frame) (td : TxnData)
    (hty : f.type = "process_transaction") (hsid : f.sessionId ≠ "")
    (htd : f.transactionData = some td) :
    (∀ s cws, st.sessions f.sessionId = some s → s.status = Status.wallet_connected →
      st.connections f.sessionId = some cws →
      handleMessage st ws now f =
        (st, sendMessage st cws
               { type := "process_transaction", transactionData := some td } ++
             sendMessage st ws
               { type := "transaction_sent",
                 message := "Transaction sent to frontend for processing" })) ∧
    ((statusOf st f.sessionId ≠ some Status.wallet_connected ∨
        st.connections f.sessionId = none) →
      (handleMessage st ws now f).1 = st ∧
      ∃ m, (handleMessage st ws now f).2 = sendMessage st ws (mkErr m)) := by
  constructor
  · intro s cws hget hst hc
    rw [handleMessage_process st ws now f hty,
        process_success st ws f s cws hsid (by simp [htd]) hget hst hc, htd]
  · intro h
    rw [handleMessage_process st ws now f hty]
    exact process_reject st ws f hsid (by simp [htd]) h

/-- Witness for c6_dispatch_work: dispatching to the linked session "s1"
forwards the payload to the bound socket 4 and confirms to the bot socket
9; dispatching to a session still in `created` yields the single error
reply with the state unchanged. -/
theorem c6_dispatch_work_witness :
    handleMessage linkedState 9 0 dispatchFrame =
      (linkedState,
       sendMessage linkedState 4
         { type := "process_transaction",
           transactionData := some { amount := "5", receiver := "r1" } } ++
       sendMessage linkedState 9
         { type := "transaction_sent",
           message := "Transaction sent to frontend for processing" }) ∧
    ((handleMessage (sampleState Status.created) 9 0 dispatchFrame).1 =
      sampleState Status.created ∧
     ∃ m, (handleMessage (sampleState Status.created) 9 0 dispatchFrame).2 =
        sendMessage (sampleState Status.created) 9 (mkErr m)) :=
  ⟨(c6_dispatch_work linkedState 9 0 dispatchFrame { amount := "5", receiver := "r1" }
      rfl (by decide) rfl).1
     (sampleSession Status.wallet_connected) 4 (by decide) (by decide) (by decide),
   (c6_dispatch_work (sampleState Status.created) 9 0 dispatchFrame
      { amount := "5", receiver := "r1" } rfl (by decide) rfl).2
     (Or.inl (by decide))⟩

/-- C8 counterexample: the claim says the error reply for an unrecognized
type names the unrecognized type value.  The code replies with the fixed
message "Unknown message type": the reply for type "zzz" does not mention
"zzz", and distinct unknown types "yyy" and "zzz" produce identical
replies, so the reply cannot name the type. -/
theorem c8_counterexample :
    (handleMessage (sampleState Status.created) 3 0 { type := "zzz" }).2 =
      [(3, mkErr "Unknown message type")] ∧
    (handleMessage (sampleState Status.created) 3 0 { type := "yyy" }).2 =
      (handleMessage (sampleState Status.created) 3 0 { type := "zzz" }).2 := by
  decide

/-- C8 (amended): a frame whose type discriminator matches none of the
seven known handlers is answered with an error reply to the originating
socket carrying the fixed message "Unknown message type" (which does not
name the type), the state is unchanged, and the handler is total — it
never throws. -/
theorem c8_unknown_type (st : ServerState) (ws : Nat) (now : Int) (f : Frame)
    (h : ¬ f.type ∈ knownMessageTypes) :
    handleMessage st ws now f = (st, sendMessage st ws (mkErr "Unknown message type")) := by
  simp [knownMessageTypes] at h
  obtain ⟨n1, n2, n3, n4, n5, n6, n7⟩ := h
  simp [handleMessage, n1, n2, n3, n4, n5, n6, n7]

/-- Witness for c8_unknown_type: the unknown type "nope" gets the fixed
error reply. -/
theorem c8_unknown_type_witness :
    handleMessage (sampleState Status.created) 3 0 { type := "nope" } =
      (sampleState Status.created,
       sendMessage (sampleState Status.created) 3 (mkErr "Unknown message type")) :=
  c8_unknown_type (sampleState Status.created) 3 0 { type := "nope" } (by decide)

/-- C9: a `transaction_result` naming any session that exists and is not
yet `expired` (including `created` and `connected`) is accepted from ANY
socket — the theorem quantifies over an arbitrary sender socket `ws` with
no hypothesis relating it to the session's bound client, and the frame
carries no transaction identifier to match.  The session is marked
`expired` and `transaction_completed` is broadcast to every open bot
(controller) socket. -/
theorem c9_result_any_socket (st : ServerState) (ws : Nat) (now : Int) (f : Frame)
    (s : Session) (b : Bool)
    (hty : f.type = "transaction_result") (hb : f.success = some b)
    (hsid : f.sessionId ≠ "") (hget : st.sessions f.sessionId = some s)
    (hexp : s.status ≠ Status.expired) :
    (handleMessage st ws now f).1.sessions f.sessionId =
      some { s with status := Status.expired } ∧
    (handleMessage st ws now f).2 =
      sendToBotMsgs st
        { type := "transaction_completed", success := some b, userId := s.userId,
          chatId := s.chatId, username := s.username, walletId := s.walletId,
          sessionId := f.sessionId,
          signature := if b = true ∧ f.signature ≠ "" then f.signature else "",
          txHash := if b = true ∧ f.txHash ≠ "" then f.txHash else "",
          error := f.error } ++
      sendMessage st ws
        { type := "transaction_result_received",
          message := "Transaction result sent to bot. Session is now expired." } := by
  rw [handleMessage_txnResult st ws now f hty,
      txnResult_success st ws f s b hb hsid hget hexp]
  exact ⟨by simp [sendToBotState], rfl⟩

/-- Witness for c9_result_any_socket: socket 7 — neither the bot socket
nor any bound client (session "s1" has no client connection at all) —
reports a result for the `created` session "s1"; the session is expired
and the broadcast goes to bot socket 9. -/
theorem c9_result_any_socket_witness :
    (handleMessage (sampleState Status.created) 7 0
        { type := "transaction_result", sessionId := "s1", success := some true }).1.sessions "s1" =
      some { sessionId := "s1", userId := "u1", chatId := "c1", username := "alice",
             status := Status.expired, createdAt := 0, connectedAt := none,
             walletConnectedAt := none, walletId := none, txnLink := none,
             transactionData := none } ∧
    (handleMessage (sampleState Status.created) 7 0
        { type := "transaction_result", sessionId := "s1", success := some true }).2 =
      [(9, { type := "transaction_completed", success := some true, userId := "u1",
             chatId := "c1", username := "alice", sessionId := "s1" }),
       (7, { type := "transaction_result_received",
             message := "Transaction result sent to bot. Session is now expired." })] := by
  have h := c9_result_any_socket (sampleState Status.created) 7 0
    { type := "transaction_result", sessionId := "s1", success := some true }
    (sampleSession Status.created) true rfl rfl (by decide) (by decide) (by decide)
  constructor
  · rw [h.1]
    decide
  · rw [h.2]
    decide

/-- C1 counterexample: the claim says no frame moves a terminal session
back to a non-terminal status and `wallet_connected` is never reachable
from `expired`.  A `wallet_connected` frame for the expired session "s1"
moves its status from `expired` back to `wallet_connected`. -/
theorem c1_counterexample :
    statusOf (sampleState Status.expired) "s1" = some Status.expired ∧
    statusOf (handleMessage (sampleState Status.expired) 5 0
      { type := "wallet_connected", sessionId := "s1", walletId := "w1" }).1 "s1" =
      some Status.wallet_connected := by
  decide

/-- C1 (amended): the exact per-frame status transitions.  Every inbound
frame either leaves a session's status unchanged, or acts as follows on the
session it names: `create_session` (re)sets the status to `created`
whatever it was before; `init_session` moves `created` to `connected` and
nothing else; `wallet_connected` sets the status of any existing session —
including one in `created` or in the terminal `expired` — to
`wallet_connected`; `transaction_result` moves any non-`expired` status to
`expired`.  So the graph of §4.1 is violated exactly by the
`wallet_connected` backward/skipping edges and by `create_session`
overwrites, while `init_session` and `transaction_result` only ever move
forward. -/
theorem c1_status_transitions (st : ServerState) (ws : Nat) (now : Int) (f : Frame)
    (sid : String) :
    statusOf (handleMessage st ws now f).1 sid = statusOf st sid ∨
    (f.type = "create_session" ∧ sid = f.sessionId ∧
      statusOf (handleMessage st ws now f).1 sid = some Status.created) ∨
    (f.type = "init_session" ∧ sid = f.sessionId ∧
      statusOf st sid = some Status.created ∧
      statusOf (handleMessage st ws now f).1 sid = some Status.connected) ∨
    (f.type = "wallet_connected" ∧ sid = f.sessionId ∧ (statusOf st sid).isSome ∧
      statusOf (handleMessage st ws now f).1 sid = some Status.wallet_connected) ∨
    (f.type = "transaction_result" ∧ sid = f.sessionId ∧
      statusOf st sid ≠ some Status.expired ∧ (statusOf st sid).isSome ∧
      statusOf (handleMessage st ws now f).1 sid = some Status.expired) := by
  by_cases h1 : f.type = "bot_connect"
  · left
    rw [handleMessage_bot_connect st ws now f h1]
    rfl
  by_cases h2 : f.type = "create_session"
  · rw [handleMessage_create st ws now f h2]
    by_cases hm : f.sessionId = "" ∨ f.userId = "" ∨ f.chatId = "" ∨ f.username = ""
    · left
      rw [create_missing st ws now f hm]
    push_neg at hm
    obtain ⟨hm1, hm2, hm3, hm4⟩ := hm
    by_cases hb : badTxnData f.transactionData = true
    · left
      rw [create_badTxn st ws now f hm1 hm2 hm3 hm4 hb]
    have hb5 : badTxnData f.transactionData = false := by
      simpa using hb
    rw [create_success st ws now f hm1 hm2 hm3 hm4 hb5]
    by_cases hsid : sid = f.sessionId
    · right; left
      exact ⟨h2, hsid, by simp [statusOf, hsid, newSessionOf]⟩
    · left
      simp [statusOf, hsid]
  by_cases h3 : f.type = "init_session"
  · rw [handleMessage_init st ws now f h3]
    by_cases hm : f.sessionId = ""
    · left
      rw [initSession_missing st ws now f hm]
    rcases hget : st.sessions f.sessionId with _ | s
    · left
      rw [initSession_unknown st ws now f hm hget]
    cases hstat : s.status with
    | expired =>
      left
      rw [initSession_terminal st ws now f s hm hget hstat]
    | connected =>
      left
      rw [initSession_inUse st ws now f s hm hget (Or.inl hstat)]
    | wallet_connected =>
      left
      rw [initSession_inUse st ws now f s hm hget (Or.inr hstat)]
    | created =>
      rw [initSession_success st ws now f s hm hget hstat]
      by_cases hsid : sid = f.sessionId
      · right; right; left
        refine ⟨h3, hsid, ?_, ?_⟩
        · simp [statusOf, hsid, hget, hstat]
        · simp [statusOf, hsid]
      · left
        simp [statusOf, hsid]
  by_cases h4 : f.type = "wallet_connected"
  · rw [handleMessage_wallet st ws now f h4]
    by_cases hm : f.sessionId = "" ∨ f.walletId = ""
    · left
      rw [wallet_missing st ws now f hm]
    push_neg at hm
    obtain ⟨hm1, hm2⟩ := hm
    rcases hget : st.sessions f.sessionId with _ | s
    · left
      rw [wallet_unknown st ws now f hm1 hm2 hget]
    rw [wallet_success st ws now f s hm1 hm2 hget]
    by_cases hsid : sid = f.sessionId
    · right; right; right; left
      refine ⟨h4, hsid, ?_, ?_⟩
      · simp [statusOf, hsid, hget]
      · simp [statusOf, sendToBotState, hsid]
    · left
      simp [statusOf, sendToBotState, hsid]
  by_cases h5 : f.type = "process_transaction"
  · left
    rw [handleMessage_process st ws now f h5, process_fst st ws f]
  by_cases h6 : f.type = "transaction_result"
  · rw [handleMessage_txnResult st ws now f h6]
    by_cases hm : f.success = none ∨ f.sessionId = ""
    · left
      rw [txnResult_missing st ws f hm]
    push_neg at hm
    obtain ⟨hm1, hm2⟩ := hm
    rcases hsucc : f.success with _ | b
    · exact absurd hsucc hm1
    rcases hget : st.sessions f.sessionId with _ | s
    · left
      rw [txnResult_unknown st ws f b hsucc hm2 hget]
    by_cases hstat : s.status = Status.expired
    · left
      rw [txnResult_terminal st ws f s b hsucc hm2 hget hstat]
    rw [txnResult_success st ws f s b hsucc hm2 hget hstat]
    by_cases hsid : sid = f.sessionId
    · right; right; right; right
      refine ⟨h6, hsid, ?_, ?_, ?_⟩
      · simp [statusOf, hsid, hget, hstat]
      · simp [statusOf, hsid, hget]
      · simp [statusOf, sendToBotState, hsid]
    · left
      simp [statusOf, sendToBotState, hsid]
  left
  by_cases h7 : f.type = "ping" <;>
    simp [handleMessage, h1, h2, h3, h4, h5, h6, h7, statusOf]

/-- C10 counterexample: the claim says that after the bound client's socket
closes, the session is never again bindable by any client.  Starting from
the bound state, closing socket 4 removes the registry entry and leaves
status `connected`; but a duplicate `create_session` then resets the record
to `created`, after which an `init_session` from socket 8 succeeds with
`session_initialized` — the session was re-bound. -/
theorem c10_counterexample :
    (cleanupConnection boundState 4).connections "s1" = none ∧
    statusOf (cleanupConnection boundState 4) "s1" = some Status.connected ∧
    ((handleMessage (handleMessage (cleanupConnection boundState 4) 9 50
        dupCreateFrame).1 8 60
        { type := "init_session", sessionId := "s1" }).2.map
      (fun p => (p.1, p.2.type))) = [(8, "session_initialized")] := by
  decide

/-- C10 (amended): closing a socket removes its session's registry entry
but never touches the session store, so the status is unchanged; while a
session's status remains `connected` or `wallet_connected`, every
`init_session` naming it — from any socket — is rejected with "Session
already in use" and no state change; and no inbound frame ever removes a
session from the store, so the record persists until the sweeper or the
delayed post-result cleanup deletes it.  (The original "never re-bindable"
fails only when a duplicate `create_session` resets the record to
`created`; see the counterexample.) -/
theorem c10_unbind_and_reject (st : ServerState) (ws : Nat) :
    (cleanupConnection st ws).sessions = st.sessions ∧
    (∀ sid, st.wsSessionId ws = some sid →
      (cleanupConnection st ws).connections sid = none) ∧
    (∀ ws2 now f s, f.type = "init_session" → f.sessionId ≠ "" →
      st.sessions f.sessionId = some s →
      s.status = Status.connected ∨ s.status = Status.wallet_connected →
      handleMessage st ws2 now f =
        (st, sendMessage st ws2 (mkErr "Session already in use"))) ∧
    (∀ ws2 now f sid, (st.sessions sid).isSome →
      ((handleMessage st ws2 now f).1.sessions sid).isSome) := by
  refine ⟨?_, ?_, ?_, ?_⟩
  · unfold cleanupConnection
    cases hws : st.wsSessionId ws <;> simp only [hws] <;> split <;> rfl
  · intro sid hws
    unfold cleanupConnection
    simp only [hws]
    split <;> simp
  · intro ws2 now f s hty h1 hget hst
    rw [handleMessage_init st ws2 now f hty]
    exact initSession_inUse st ws2 now f s h1 hget hst
  · intro ws2 now f sid hsome
    by_cases h1 : f.type = "bot_connect"
    · rw [handleMessage_bot_connect st ws2 now f h1]
      exact hsome
    by_cases h2 : f.type = "create_session"
    · rw [handleMessage_create st ws2 now f h2]
      unfold handleCreateSession
      split
      · exact hsome
      split
      · exact hsome
      by_cases hsid : sid = f.sessionId <;> simp [hsid, hsome]
    by_cases h3 : f.type = "init_session"
    · rw [handleMessage_init st ws2 now f h3]
      unfold handleInitSession
      split
      · exact hsome
      split
      · exact hsome
      split
      · exact hsome
      split
      · exact hsome
      by_cases hsid : sid = f.sessionId <;> simp [hsid, hsome]
    by_cases h4 : f.type = "wallet_connected"
    · rw [handleMessage_wallet st ws2 now f h4]
      unfold handleWalletConnected
      split
      · exact hsome
      split
      · exact hsome
      by_cases hsid : sid = f.sessionId <;> simp [sendToBotState, hsid, hsome]
    by_cases h5 : f.type = "process_transaction"
    · rw [handleMessage_process st ws2 now f h5, process_fst st ws2 f]
      exact hsome
    by_cases h6 : f.type = "transaction_result"
    · rw [handleMessage_txnResult st ws2 now f h6]
      unfold handleTransactionResult
      split
      · exact hsome
      split
      · exact hsome
      split
      · exact hsome
      by_cases hsid : sid = f.sessionId <;> simp [sendToBotState, hsid, hsome]
    by_cases h7 : f.type = "ping" <;>
      simp [handleMessage, h1, h2, h3, h4, h5, h6, h7, hsome]

/-- Witness for c10_unbind_and_reject: in the concrete bound state, closing
socket 4 keeps the store intact and clears the registry entry; an
`init_session` from the fresh socket 8 is rejected with "Session already in
use"; and the record survives that frame. -/
theorem c10_unbind_and_reject_witness :
    (cleanupConnection boundState 4).sessions = boundState.sessions ∧
    (cleanupConnection boundState 4).connections "s1" = none ∧
    handleMessage boundState 8 0 { type := "init_session", sessionId := "s1" } =
      (boundState, sendMessage boundState 8 (mkErr "Session already in use")) ∧
    ((handleMessage boundState 8 0
      { type := "init_session", sessionId := "s1" }).1.sessions "s1").isSome := by
  have h := c10_unbind_and_reject boundState 4
  exact ⟨h.1, h.2.1 "s1" (by decide),
    h.2.2.1 8 0 { type := "init_session", sessionId := "s1" } boundSession
      rfl (by decide) (by decide) (Or.inl (by decide)),
    h.2.2.2 8 0 { type := "init_session", sessionId := "s1" } "s1" (by decide)⟩

end Trsocket
